import Mathlib

/-!
# The snps_ev device API adapter

A shallow embedding of `SNPS_EVDeviceAPI` (`src/snps_ev_device_api.cc`): the
allocation entry points `AllocDataSpace` / `FreeDataSpace` / `AllocWorkspace` /
`FreeWorkspace`, the address helpers `GetDevLoc` / `GetHostLoc`, and the copy
dispatcher `CopyDataFromTo`.

The adapter is stateful C++; here every entry point is a function from a
`World` (all sessions, the current-session reference, host memory and the log
of calls made to the collaborators) to an `Outcome` and the next `World`.
`CHECK` / `LOG(FATAL)` failures are the `Outcome.fatal` results; a
`static_cast` of a `void*` that does not point to an `SNPS_EVDevSpace` is
`Outcome.undefined`; the `std::length_error` thrown when the staging vector of
a device-to-device copy is asked for more than `max_size()` bytes is
`Outcome.length_error`.

`SNPS_EVSession`, its section allocator and `LowLevelDevice` are declared in
headers outside `src/`; they are modelled from the specification and the
allocator's policy is a parameter.
-/

set_option linter.unusedVariables false

namespace SnpsEv

/-! ## Data model -/

/-- One `uint8_t`. -/
abbrev Byte := Fin 256

/-- Width in bits of `std::uintptr_t` and `size_t` on the host. -/
def UINTPTR_BITS : Nat := 64

/-- `std::vector<uint8_t>::max_size()` on the host: `PTRDIFF_MAX`. -/
def VECTOR_MAX_SIZE : Nat := 2 ^ (UINTPTR_BITS - 1) - 1

/-- Identity of an `SNPS_EVSession` object: `ObjectPtr` values compare by the
address of the object they point to. -/
abbrev SessionRef := Nat

/-- The two memory sections an allocation can be drawn from. -/
inductive SectionKind where
  | kHeap
  | kWorkspace
deriving DecidableEq

/-- The `(device_type, device_id)` pair tagging an operation. `device_type`
is kept as the integer the source compares (`std::tuple<int, int>`). -/
structure TVMContext where
  device_type : Int
  device_id : Int
deriving DecidableEq

/-- The `type_hint` argument; no entry point of the adapter reads it. -/
structure TVMType where
  code : Nat
  bits : Nat
  lanes : Nat
deriving DecidableEq

/-- The `stream` argument; no entry point of the adapter reads it. -/
abbrev TVMStreamHandle := Nat

/-- The two `DLDeviceType` enumerators the adapter compares against. The enum
is declared in a header outside `src/`, so their values are parameters. -/
structure DeviceKinds where
  kDLCPU : Int
  kDLSNPS_EV : Int
deriving DecidableEq

/-- The host-side record created by every allocation: the device address
(`data`, the `void*` obtained from the `DevPtr`) and the owning session. -/
structure SNPS_EVDevSpace where
  data : Nat
  session : SessionRef
deriving DecidableEq

/-- A `void*` argument: its numeric value and the `SNPS_EVDevSpace` record
stored at that address, when there is one. -/
structure VoidPtr where
  addr : Nat
  pointee : Option SNPS_EVDevSpace
deriving DecidableEq

/-- The null device address (`data != nullptr`). -/
def nullptr : Nat := 0

/-- The host buffer handed to a transport call: raw host memory at an address,
or the local `std::vector<uint8_t> buffer` of the device-to-device branch. -/
inductive HostBuf where
  | host (addr : Nat)
  | staging
deriving DecidableEq

/-- A call made by the adapter to one of its collaborators, with the session
object it was made on and the arguments passed. -/
inductive Event where
  | AllocateInSection (session : SessionRef) (kind : SectionKind) (size : Nat)
  | FreeInSection (session : SessionRef) (kind : SectionKind) (ptr : Nat)
  | Read (session : SessionRef) (addr : Nat) (buf : HostBuf) (num_bytes : Nat)
  | Write (session : SessionRef) (addr : Nat) (buf : HostBuf) (num_bytes : Nat)
deriving DecidableEq

/-- The fatal errors raised by `CHECK` and `LOG(FATAL)` in the adapter. -/
inductive Fatal where
  /-- "unable to allocate N bytes on device heap" -/
  | unable_to_allocate_heap (nbytes : Nat)
  /-- "unable to allocate N bytes on device workspace" -/
  | unable_to_allocate_workspace (size : Nat)
  /-- "attempt to copy data between different snps_ev sessions (a != b)" -/
  | different_sessions (from_session to_session : SessionRef)
  /-- "can only copy between the same snps_ev device" -/
  | different_device
  /-- "Expect copy from/to snps_ev device or between snps_ev device" -/
  | expect_snps_ev
deriving DecidableEq

/-- How an entry point ends: it returns, it raises a fatal error, it
dereferences a pointer that is not an `SNPS_EVDevSpace`, or the constructor of
the staging `std::vector` throws `std::length_error`. -/
inductive Outcome (α : Type) where
  | ok (value : α)
  | fatal (err : Fatal)
  | undefined
  | length_error
deriving DecidableEq

/-! ## Collaborators -/

/-- Modelled from the spec: the Section Allocator of `snps_ev_session.h`
(not under `src/`). `Allocate` reserves `size` bytes and returns the device
address (the null address on failure) with the section's new bookkeeping;
`Free` releases an address. The policy itself is left open. -/
structure SectionAllocator (σ : Type) where
  Allocate : σ → Nat → Nat × σ
  Free : σ → Nat → σ

/-- Modelled from the spec: the state of one `SNPS_EVSession`
(`snps_ev_session.h`, not under `src/`): one allocator state per section and
the byte memory behind its `LowLevelDevice`. -/
structure SNPS_EVSession (σ : Type) where
  heap : σ
  workspace : σ
  memory : Nat → Byte

/-- The allocator state of section `kind`. -/
def SNPS_EVSession.sectionState {σ : Type} (s : SNPS_EVSession σ) : SectionKind → σ
  | SectionKind.kHeap => s.heap
  | SectionKind.kWorkspace => s.workspace

/-- Replace the allocator state of section `kind`. -/
def SNPS_EVSession.setSection {σ : Type} (s : SNPS_EVSession σ) (kind : SectionKind) (st : σ) :
    SNPS_EVSession σ :=
  match kind with
  | SectionKind.kHeap => { s with heap := st }
  | SectionKind.kWorkspace => { s with workspace := st }

/-- Everything the adapter can observe or change. -/
structure World (σ : Type) where
  /-- the session objects, by identity -/
  sessions : SessionRef → SNPS_EVSession σ
  /-- the process-wide current session -/
  current : SessionRef
  /-- host memory -/
  host : Nat → Byte
  /-- the calls made to sessions and transports so far, oldest first -/
  calls : List Event

/-- Modelled from the spec: `SNPS_EVSession::Current()` (`snps_ev_session.h`,
not under `src/`), the process-wide active session. -/
def Current {σ : Type} (w : World σ) : SessionRef := w.current

/-- Modelled from the spec: `SNPS_EVSession::AllocateInSection(kind, size)`
(`snps_ev_session.h`, not under `src/`), delegating to the matching Section
Allocator, whose only effect is on that section's bookkeeping. -/
def AllocateInSection {σ : Type} (A : SectionAllocator σ) (session : SessionRef)
    (kind : SectionKind) (size : Nat) (w : World σ) : Nat × World σ :=
  let s := w.sessions session
  let r := A.Allocate (s.sectionState kind) size
  (r.1, { w with sessions := Function.update w.sessions session (s.setSection kind r.2),
                 calls := w.calls ++ [Event.AllocateInSection session kind size] })

/-- Modelled from the spec: `SNPS_EVSession::FreeInSection(kind, ptr)`
(`snps_ev_session.h`, not under `src/`), delegating to the matching Section
Allocator. -/
def FreeInSection {σ : Type} (A : SectionAllocator σ) (session : SessionRef)
    (kind : SectionKind) (ptr : Nat) (w : World σ) : World σ :=
  let s := w.sessions session
  { w with sessions := Function.update w.sessions session
                         (s.setSection kind (A.Free (s.sectionState kind) ptr)),
           calls := w.calls ++ [Event.FreeInSection session kind ptr] }

/-- Modelled from the spec: a byte memory (the device behind a
`LowLevelDevice`, or host memory) read at `addr`: the `num_bytes` bytes stored
from that address on. -/
def loadBytes (mem : Nat → Byte) (addr num_bytes : Nat) : List Byte :=
  (List.range num_bytes).map (fun i => mem (addr + i))

/-- Modelled from the spec: a byte memory written at `addr`: `bytes` are stored
from that address on and every other byte is kept. -/
def storeBytes (mem : Nat → Byte) (addr : Nat) (bytes : List Byte) : Nat → Byte :=
  fun a => if addr ≤ a ∧ a < addr + bytes.length then bytes.getD (a - addr) 0 else mem a

/-- Modelled from the spec: `LowLevelDevice::Read(addr, buf, num_bytes)`
(`low_level_device.h`, not under `src/`) on the transport of `session`, the
device being a byte memory: the `num_bytes` bytes stored at `addr` are
delivered to the host buffer and the device is unchanged. A buffer in host
memory is updated in the world; the delivered bytes are also returned, as the
new contents of the buffer. -/
def Read {σ : Type} (session : SessionRef) (addr : Nat) (buf : HostBuf) (num_bytes : Nat)
    (w : World σ) : List Byte × World σ :=
  let bytes := loadBytes (w.sessions session).memory addr num_bytes
  let host := match buf with
    | HostBuf.host ptr => storeBytes w.host ptr bytes
    | HostBuf.staging => w.host
  (bytes, { w with host := host,
                   calls := w.calls ++ [Event.Read session addr buf num_bytes] })

/-- Modelled from the spec: `LowLevelDevice::Write(addr, buf, num_bytes)`
(`low_level_device.h`, not under `src/`) on the transport of `session`, the
device being a byte memory: the first `num_bytes` bytes of the host buffer are
stored at `addr`. The buffer is given by its place `buf` and its contents
`bytes`. -/
def Write {σ : Type} (session : SessionRef) (addr : Nat) (buf : HostBuf) (bytes : List Byte)
    (num_bytes : Nat) (w : World σ) : World σ :=
  let s := w.sessions session
  { w with sessions := Function.update w.sessions session
                         { s with memory := storeBytes s.memory addr (bytes.take num_bytes) },
           calls := w.calls ++ [Event.Write session addr buf num_bytes] }

/-! ## The adapter (`snps_ev_device_api.cc`) -/

/-- `GetDevLoc`: `DevPtr(reinterpret_cast<std::uintptr_t>(dev_space->data) + offset)`,
in `uintptr_t` arithmetic. -/
def GetDevLoc (dev_space : SNPS_EVDevSpace) (offset : Nat) : Nat :=
  (dev_space.data + offset) % 2 ^ UINTPTR_BITS

/-- `GetHostLoc`: `reinterpret_cast<std::uintptr_t>(ptr) + offset`, in
`uintptr_t` arithmetic. -/
def GetHostLoc (ptr : VoidPtr) (offset : Nat) : Nat :=
  (ptr.addr + offset) % 2 ^ UINTPTR_BITS

/-- `AllocDataSpace(ctx, nbytes, alignment, type_hint)`. The result is the
record the returned pointer points to. -/
def AllocDataSpace {σ : Type} (A : SectionAllocator σ) (ctx : TVMContext) (nbytes : Nat)
    (alignment : Nat) (type_hint : TVMType) (w : World σ) :
    Outcome SNPS_EVDevSpace × World σ :=
  let session := Current w
  let r := AllocateInSection A session SectionKind.kHeap nbytes w
  let data := r.1
  if data ≠ nullptr then
    (Outcome.ok { data := data, session := session }, r.2)
  else
    (Outcome.fatal (Fatal.unable_to_allocate_heap nbytes), r.2)

/-- `FreeDataSpace(ctx, ptr)`. Handles are values here, so `delete dev_space`
has no counterpart. -/
def FreeDataSpace {σ : Type} (A : SectionAllocator σ) (ctx : TVMContext) (ptr : VoidPtr)
    (w : World σ) : Outcome Unit × World σ :=
  match ptr.pointee with
  | some dev_space =>
    (Outcome.ok (), FreeInSection A dev_space.session SectionKind.kHeap dev_space.data w)
  | none => (Outcome.undefined, w)

/-- `AllocWorkspace(ctx, size, type_hint)`. -/
def AllocWorkspace {σ : Type} (A : SectionAllocator σ) (ctx : TVMContext) (size : Nat)
    (type_hint : TVMType) (w : World σ) : Outcome SNPS_EVDevSpace × World σ :=
  let session := Current w
  let r := AllocateInSection A session SectionKind.kWorkspace size w
  let data := r.1
  if data ≠ nullptr then
    (Outcome.ok { data := data, session := session }, r.2)
  else
    (Outcome.fatal (Fatal.unable_to_allocate_workspace size), r.2)

/-- `FreeWorkspace(ctx, data)`. Handles are values here, so `delete dev_space`
has no counterpart. -/
def FreeWorkspace {σ : Type} (A : SectionAllocator σ) (ctx : TVMContext) (data : VoidPtr)
    (w : World σ) : Outcome Unit × World σ :=
  match data.pointee with
  | some dev_space =>
    let session := dev_space.session
    (Outcome.ok (), FreeInSection A session SectionKind.kWorkspace dev_space.data w)
  | none => (Outcome.undefined, w)

/-- `CopyDataFromTo(from, from_offset, to, to_offset, size, ctx_from, ctx_to,
type_hint, stream)`, with the enumerators `kDLSNPS_EV` and `kDLCPU` read from
`K`. -/
def CopyDataFromTo {σ : Type} (K : DeviceKinds) (from_ : VoidPtr) (from_offset : Nat)
    (to_ : VoidPtr) (to_offset : Nat) (size : Nat) (ctx_from ctx_to : TVMContext)
    (type_hint : TVMType) (stream : TVMStreamHandle) (w : World σ) :
    Outcome Unit × World σ :=
  let type_from_to : Int × Int := (ctx_from.device_type, ctx_to.device_type)
  if type_from_to = (K.kDLSNPS_EV, K.kDLSNPS_EV) then
    -- Copying from the device to the device.
    match from_.pointee, to_.pointee with
    | some from_space, some to_space =>
      if from_space.session ≠ to_space.session then
        (Outcome.fatal (Fatal.different_sessions from_space.session to_space.session), w)
      else if ctx_from.device_id ≠ ctx_to.device_id then
        (Outcome.fatal Fatal.different_device, w)
      else
        let session := from_space.session
        let from_dev_addr := GetDevLoc from_space from_offset
        let to_dev_addr := GetDevLoc to_space to_offset
        -- `std::vector<uint8_t> buffer(size)` throws above `max_size()`
        if size > VECTOR_MAX_SIZE then
          (Outcome.length_error, w)
        else
          -- the transport fills all `size` bytes of the vector
          let r := Read session from_dev_addr HostBuf.staging size w
          let buffer : List Byte := r.1
          (Outcome.ok (), Write session to_dev_addr HostBuf.staging buffer size r.2)
    | _, _ => (Outcome.undefined, w)
  else if type_from_to = (K.kDLSNPS_EV, K.kDLCPU) then
    -- Reading from the device.
    match from_.pointee with
    | some from_space =>
      let session := from_space.session
      let from_dev_addr := GetDevLoc from_space from_offset
      let to_host_ptr := GetHostLoc to_ to_offset
      (Outcome.ok (), (Read session from_dev_addr (HostBuf.host to_host_ptr) size w).2)
    | none => (Outcome.undefined, w)
  else if type_from_to = (K.kDLCPU, K.kDLSNPS_EV) then
    -- Writing to the device.
    match to_.pointee with
    | some to_space =>
      let session := to_space.session
      let from_host_ptr := GetHostLoc from_ from_offset
      let to_dev_addr := GetDevLoc to_space to_offset
      let from_host : List Byte := loadBytes w.host from_host_ptr size
      (Outcome.ok (), Write session to_dev_addr (HostBuf.host from_host_ptr) from_host size w)
    | none => (Outcome.undefined, w)
  else
    (Outcome.fatal Fatal.expect_snps_ev, w)

/-! ## A concrete instance

A small allocator and world on which the statements below are instantiated. -/

/-- Bookkeeping of an example section: its device range and the sizes of the
live blocks, most recent first. -/
structure StackSection where
  base : Nat
  capacity : Nat
  live : List Nat
deriving DecidableEq

/-- An example allocator: blocks are stacked from `base`; a request that does
not fit returns the null address; `Free` releases the most recent block when
given its address. -/
def stackAllocator : SectionAllocator StackSection where
  Allocate := fun s n =>
    if s.live.sum + n ≤ s.capacity then (s.base + s.live.sum, { s with live := n :: s.live })
    else (nullptr, s)
  Free := fun s p =>
    match s.live with
    | [] => s
    | _ :: rest => if p = s.base + rest.sum then { s with live := rest } else s

/-- An example world: every session has a 256-byte Heap at `0x1000`, a 64-byte
Workspace at `0x2000`, and device memory holding at each address its low
byte; host memory is zero, session 1 is current, nothing has been called. -/
def exampleWorld : World StackSection where
  sessions := fun _ =>
    { heap := ⟨0x1000, 0x100, []⟩,
      workspace := ⟨0x2000, 0x40, []⟩,
      memory := fun a => ⟨a % 256, Nat.mod_lt a (by decide)⟩ }
  current := 1
  host := fun _ => 0
  calls := []

/-- Example enumerator values: `kDLCPU = 1`, `kDLSNPS_EV = 13`. -/
def exampleKinds : DeviceKinds := ⟨1, 13⟩

/-- A handle of session 1 at the start of the Heap. -/
def handleA : SNPS_EVDevSpace := ⟨0x1000, 1⟩

/-- A handle of session 1 further up the Heap. -/
def handleB : SNPS_EVDevSpace := ⟨0x1080, 1⟩

/-- A handle of session 2. -/
def handleC : SNPS_EVDevSpace := ⟨0x1000, 2⟩

/-- A host buffer address that holds no device-space record. -/
def hostBuffer : VoidPtr := ⟨0x7f00, none⟩

/-- A `float32` type hint. -/
def float32 : TVMType := ⟨2, 32, 1⟩

/-! ## Byte-memory lemmas -/

theorem loadBytes_length (mem : Nat → Byte) (addr n : Nat) :
    (loadBytes mem addr n).length = n := by
  simp [loadBytes]

theorem loadBytes_getD (mem : Nat → Byte) (addr n i : Nat) (hi : i < n) :
    (loadBytes mem addr n).getD i 0 = mem (addr + i) := by
  simp [loadBytes, List.getD_eq_getElem?_getD, List.getElem?_range, hi]

theorem loadBytes_take (mem : Nat → Byte) (addr n : Nat) :
    (loadBytes mem addr n).take n = loadBytes mem addr n := by
  apply List.take_of_length_le
  simp [loadBytes]

theorem storeBytes_inside (mem : Nat → Byte) (addr : Nat) (bytes : List Byte) (i : Nat)
    (hi : i < bytes.length) : storeBytes mem addr bytes (addr + i) = bytes.getD i 0 := by
  simp [storeBytes, hi]

theorem storeBytes_outside (mem : Nat → Byte) (addr : Nat) (bytes : List Byte) (a : Nat)
    (ha : ¬ (addr ≤ a ∧ a < addr + bytes.length)) : storeBytes mem addr bytes a = mem a := by
  simp only [storeBytes]
  rw [if_neg ha]

theorem storeBytes_loadBytes (mem src_mem : Nat → Byte) (dst src n i : Nat) (hi : i < n) :
    storeBytes mem dst (loadBytes src_mem src n) (dst + i) = src_mem (src + i) := by
  rw [storeBytes_inside _ _ _ _ (by simpa [loadBytes_length] using hi)]
  exact loadBytes_getD _ _ _ _ hi

theorem storeBytes_loadBytes_outside (mem src_mem : Nat → Byte) (dst src n a : Nat)
    (ha : ¬ (dst ≤ a ∧ a < dst + n)) :
    storeBytes mem dst (loadBytes src_mem src n) a = mem a := by
  apply storeBytes_outside
  simpa [loadBytes_length] using ha

/-! ## Address arithmetic -/

/-- `GetDevLoc` is the plain sum whenever the sum fits a `uintptr_t`. -/
theorem GetDevLoc_of_lt (dev_space : SNPS_EVDevSpace) (offset : Nat)
    (h : dev_space.data + offset < 2 ^ UINTPTR_BITS) :
    GetDevLoc dev_space offset = dev_space.data + offset :=
  Nat.mod_eq_of_lt h

/-- `GetHostLoc` is the plain sum whenever the sum fits a `uintptr_t`. -/
theorem GetHostLoc_of_lt (ptr : VoidPtr) (offset : Nat)
    (h : ptr.addr + offset < 2 ^ UINTPTR_BITS) :
    GetHostLoc ptr offset = ptr.addr + offset :=
  Nat.mod_eq_of_lt h

/-! ## `CopyDataFromTo` -/

/-- The world after the device-to-host branch. -/
theorem CopyDataFromTo_read_eq {σ : Type} (K : DeviceKinds)
    (from_addr : Nat) (from_space : SNPS_EVDevSpace) (to_ : VoidPtr)
    (from_offset to_offset size : Nat) (id_from id_to : Int)
    (type_hint : TVMType) (stream : TVMStreamHandle) (w : World σ)
    (hk : K.kDLSNPS_EV ≠ K.kDLCPU) :
    CopyDataFromTo K ⟨from_addr, some from_space⟩ from_offset to_ to_offset size
        ⟨K.kDLSNPS_EV, id_from⟩ ⟨K.kDLCPU, id_to⟩ type_hint stream w
      = (Outcome.ok (),
         { w with
           host := storeBytes w.host (GetHostLoc to_ to_offset)
             (loadBytes (w.sessions from_space.session).memory
               (GetDevLoc from_space from_offset) size),
           calls := w.calls ++
             [Event.Read from_space.session (GetDevLoc from_space from_offset)
                (HostBuf.host (GetHostLoc to_ to_offset)) size] }) := by
  have hk2 : ¬ (K.kDLCPU = K.kDLSNPS_EV) := fun e => hk e.symm
  simp only [CopyDataFromTo, Read, Prod.mk.injEq, true_and, hk2, if_false, and_self, if_true]

/-- The world after the host-to-device branch. -/
theorem CopyDataFromTo_write_eq {σ : Type} (K : DeviceKinds)
    (from_ : VoidPtr) (to_addr : Nat) (to_space : SNPS_EVDevSpace)
    (from_offset to_offset size : Nat) (id_from id_to : Int)
    (type_hint : TVMType) (stream : TVMStreamHandle) (w : World σ)
    (hk : K.kDLSNPS_EV ≠ K.kDLCPU) :
    CopyDataFromTo K from_ from_offset ⟨to_addr, some to_space⟩ to_offset size
        ⟨K.kDLCPU, id_from⟩ ⟨K.kDLSNPS_EV, id_to⟩ type_hint stream w
      = (Outcome.ok (),
         { w with
           sessions := Function.update w.sessions to_space.session
             { w.sessions to_space.session with
               memory := storeBytes (w.sessions to_space.session).memory
                 (GetDevLoc to_space to_offset)
                 (loadBytes w.host (GetHostLoc from_ from_offset) size) },
           calls := w.calls ++
             [Event.Write to_space.session (GetDevLoc to_space to_offset)
                (HostBuf.host (GetHostLoc from_ from_offset)) size] }) := by
  have hk2 : ¬ (K.kDLCPU = K.kDLSNPS_EV) := fun e => hk e.symm
  simp only [CopyDataFromTo, Write, loadBytes_take, Prod.mk.injEq, true_and, and_true, hk2, hk,
    if_false, and_self, if_true, and_false, false_and]

/-- C1. A device-to-device copy between handles of different owning sessions
ends in the session-mismatch fatal error and leaves the world as it was: the
call log is the same, so no `Read` and no `Write` was issued on any session.
This holds for every size, all offsets and all device ids, equal or not. -/
theorem CopyDataFromTo_different_sessions {σ : Type} (K : DeviceKinds)
    (from_addr to_addr : Nat) (from_space to_space : SNPS_EVDevSpace)
    (from_offset to_offset size : Nat) (id_from id_to : Int)
    (type_hint : TVMType) (stream : TVMStreamHandle) (w : World σ)
    (h : from_space.session ≠ to_space.session) :
    CopyDataFromTo K ⟨from_addr, some from_space⟩ from_offset
        ⟨to_addr, some to_space⟩ to_offset size
        ⟨K.kDLSNPS_EV, id_from⟩ ⟨K.kDLSNPS_EV, id_to⟩ type_hint stream w
      = (Outcome.fatal (Fatal.different_sessions from_space.session to_space.session), w) := by
  simp [CopyDataFromTo, h]

/-- C3. A copy from an snps_ev context to a CPU context returns after exactly
one transport call: a `Read` of `size` bytes from device address
`GetDevLoc from_space from_offset` into host address `GetHostLoc to_ to_offset`,
on the session recorded in the source handle, whatever the current session is.
No `Write` is issued: every session, device memory included, is unchanged.
Afterwards the host range holds the device bytes and every host byte outside
it is unchanged. Addresses are the `uintptr_t` sums computed by `GetDevLoc`
and `GetHostLoc`, which are the plain sums whenever those fit a `uintptr_t`. -/
theorem CopyDataFromTo_device_to_host {σ : Type} (K : DeviceKinds)
    (from_addr : Nat) (from_space : SNPS_EVDevSpace) (to_ : VoidPtr)
    (from_offset to_offset size : Nat) (id_from id_to : Int)
    (type_hint : TVMType) (stream : TVMStreamHandle) (w : World σ)
    (hk : K.kDLSNPS_EV ≠ K.kDLCPU) :
    ∃ w1 : World σ,
      CopyDataFromTo K ⟨from_addr, some from_space⟩ from_offset
          to_ to_offset size
          ⟨K.kDLSNPS_EV, id_from⟩ ⟨K.kDLCPU, id_to⟩ type_hint stream w
        = (Outcome.ok (), w1) ∧
      w1.calls = w.calls ++
        [Event.Read from_space.session (GetDevLoc from_space from_offset)
           (HostBuf.host (GetHostLoc to_ to_offset)) size] ∧
      w1.sessions = w.sessions ∧
      (∀ i, i < size →
        w1.host (GetHostLoc to_ to_offset + i)
          = (w.sessions from_space.session).memory (GetDevLoc from_space from_offset + i)) ∧
      (∀ a, ¬ (GetHostLoc to_ to_offset ≤ a ∧ a < GetHostLoc to_ to_offset + size) →
        w1.host a = w.host a) ∧
      w1.current = w.current ∧
      (from_space.data + from_offset < 2 ^ UINTPTR_BITS →
        GetDevLoc from_space from_offset = from_space.data + from_offset) ∧
      (to_.addr + to_offset < 2 ^ UINTPTR_BITS →
        GetHostLoc to_ to_offset = to_.addr + to_offset) := by
  refine ⟨_, CopyDataFromTo_read_eq K from_addr from_space to_ from_offset to_offset
    size id_from id_to type_hint stream w hk, rfl, rfl, ?_, ?_, rfl,
    GetDevLoc_of_lt _ _, GetHostLoc_of_lt _ _⟩
  · intro i hi
    exact storeBytes_loadBytes _ _ _ _ _ _ hi
  · intro a ha
    exact storeBytes_loadBytes_outside _ _ _ _ _ _ ha

/-- C4. A copy from a CPU context to an snps_ev context returns after exactly
one transport call: a `Write` of `size` bytes from host address
`GetHostLoc from_ from_offset` to device address `GetDevLoc to_space to_offset`,
on the session recorded in the destination handle. No `Read` is issued.
Afterwards the device range holds the host source bytes, every other device
byte of that session is unchanged, and so are its allocator states, the other
sessions, host memory and the current session. Addresses are the `uintptr_t`
sums computed by `GetHostLoc` and `GetDevLoc`, which are the plain sums
whenever those fit a `uintptr_t`. -/
theorem CopyDataFromTo_host_to_device {σ : Type} (K : DeviceKinds)
    (from_ : VoidPtr) (to_addr : Nat) (to_space : SNPS_EVDevSpace)
    (from_offset to_offset size : Nat) (id_from id_to : Int)
    (type_hint : TVMType) (stream : TVMStreamHandle) (w : World σ)
    (hk : K.kDLSNPS_EV ≠ K.kDLCPU) :
    ∃ w1 : World σ,
      CopyDataFromTo K from_ from_offset
          ⟨to_addr, some to_space⟩ to_offset size
          ⟨K.kDLCPU, id_from⟩ ⟨K.kDLSNPS_EV, id_to⟩ type_hint stream w
        = (Outcome.ok (), w1) ∧
      w1.calls = w.calls ++
        [Event.Write to_space.session (GetDevLoc to_space to_offset)
           (HostBuf.host (GetHostLoc from_ from_offset)) size] ∧
      (∀ i, i < size →
        (w1.sessions to_space.session).memory (GetDevLoc to_space to_offset + i)
          = w.host (GetHostLoc from_ from_offset + i)) ∧
      (∀ a, ¬ (GetDevLoc to_space to_offset ≤ a ∧
               a < GetDevLoc to_space to_offset + size) →
        (w1.sessions to_space.session).memory a = (w.sessions to_space.session).memory a) ∧
      (w1.sessions to_space.session).heap = (w.sessions to_space.session).heap ∧
      (w1.sessions to_space.session).workspace = (w.sessions to_space.session).workspace ∧
      (∀ s, s ≠ to_space.session → w1.sessions s = w.sessions s) ∧
      w1.host = w.host ∧ w1.current = w.current ∧
      (from_.addr + from_offset < 2 ^ UINTPTR_BITS →
        GetHostLoc from_ from_offset = from_.addr + from_offset) ∧
      (to_space.data + to_offset < 2 ^ UINTPTR_BITS →
        GetDevLoc to_space to_offset = to_space.data + to_offset) := by
  refine ⟨_, CopyDataFromTo_write_eq K from_ to_addr to_space from_offset to_offset
    size id_from id_to type_hint stream w hk, rfl, ?_, ?_, ?_, ?_, ?_, rfl, rfl,
    GetHostLoc_of_lt _ _, GetDevLoc_of_lt _ _⟩
  · intro i hi
    simp only [Function.update_same]
    exact storeBytes_loadBytes _ _ _ _ _ _ hi
  · intro a ha
    simp only [Function.update_same]
    exact storeBytes_loadBytes_outside _ _ _ _ _ _ ha
  · simp
  · simp
  · intro s hs
    simp [Function.update_noteq hs]

/-- C5. Round trip through the host. In one session, a device-to-host copy of
`N` bytes from handle `A` at `a_offset` into a host buffer at `host_offset`,
followed by a host-to-device copy of `N` bytes from that buffer into a handle
`B` at `b_offset` whose range is disjoint from the range of `A`, both return.
The two calls are one `Read` at `GetDevLoc A a_offset` and one `Write` at
`GetDevLoc B b_offset`, through the host buffer at
`GetHostLoc host_buf host_offset`, which in between holds the bytes of `A`.
Afterwards the `N` device bytes at `B` are the bytes that were at `A` before
the two copies, the bytes at `A` are unchanged, and so is every device byte
outside the range of `B`. The addresses are `data + offset` whenever that sum
fits a `uintptr_t`, and the result is restated with those plain sums. -/
theorem CopyDataFromTo_round_trip {σ : Type} (K : DeviceKinds)
    (a_addr b_addr : Nat) (A B : SNPS_EVDevSpace) (host_buf : VoidPtr)
    (a_offset host_offset b_offset N : Nat) (id_a id_host id_host2 id_b : Int)
    (type_hint : TVMType) (stream : TVMStreamHandle) (w : World σ)
    (hk : K.kDLSNPS_EV ≠ K.kDLCPU) (hs : B.session = A.session)
    (hd : GetDevLoc A a_offset + N ≤ GetDevLoc B b_offset ∨
          GetDevLoc B b_offset + N ≤ GetDevLoc A a_offset) :
    ∃ w1 w2 : World σ,
      CopyDataFromTo K ⟨a_addr, some A⟩ a_offset host_buf host_offset N
          ⟨K.kDLSNPS_EV, id_a⟩ ⟨K.kDLCPU, id_host⟩ type_hint stream w
        = (Outcome.ok (), w1) ∧
      CopyDataFromTo K host_buf host_offset ⟨b_addr, some B⟩ b_offset N
          ⟨K.kDLCPU, id_host2⟩ ⟨K.kDLSNPS_EV, id_b⟩ type_hint stream w1
        = (Outcome.ok (), w2) ∧
      w1.calls = w.calls ++
        [Event.Read A.session (GetDevLoc A a_offset)
           (HostBuf.host (GetHostLoc host_buf host_offset)) N] ∧
      w2.calls = w1.calls ++
        [Event.Write B.session (GetDevLoc B b_offset)
           (HostBuf.host (GetHostLoc host_buf host_offset)) N] ∧
      (∀ i, i < N →
        w1.host (GetHostLoc host_buf host_offset + i)
          = (w.sessions A.session).memory (GetDevLoc A a_offset + i)) ∧
      (∀ i, i < N →
        (w2.sessions A.session).memory (GetDevLoc B b_offset + i)
          = (w.sessions A.session).memory (GetDevLoc A a_offset + i)) ∧
      (∀ i, i < N →
        (w2.sessions A.session).memory (GetDevLoc A a_offset + i)
          = (w.sessions A.session).memory (GetDevLoc A a_offset + i)) ∧
      (∀ a, ¬ (GetDevLoc B b_offset ≤ a ∧ a < GetDevLoc B b_offset + N) →
        (w2.sessions A.session).memory a = (w.sessions A.session).memory a) ∧
      (A.data + a_offset < 2 ^ UINTPTR_BITS →
        GetDevLoc A a_offset = A.data + a_offset) ∧
      (B.data + b_offset < 2 ^ UINTPTR_BITS →
        GetDevLoc B b_offset = B.data + b_offset) ∧
      (host_buf.addr + host_offset < 2 ^ UINTPTR_BITS →
        GetHostLoc host_buf host_offset = host_buf.addr + host_offset) ∧
      (A.data + a_offset < 2 ^ UINTPTR_BITS → B.data + b_offset < 2 ^ UINTPTR_BITS →
        ∀ i, i < N →
          (w2.sessions A.session).memory (B.data + b_offset + i)
            = (w.sessions A.session).memory (A.data + a_offset + i) ∧
          (w2.sessions A.session).memory (A.data + a_offset + i)
            = (w.sessions A.session).memory (A.data + a_offset + i)) := by
  obtain ⟨b_data, b_session⟩ := B
  simp only at hs
  subst hs
  have hB : ∀ i, i < N →
      storeBytes (w.sessions A.session).memory (GetDevLoc ⟨b_data, A.session⟩ b_offset)
          (loadBytes
            (storeBytes w.host (GetHostLoc host_buf host_offset)
              (loadBytes (w.sessions A.session).memory (GetDevLoc A a_offset) N))
            (GetHostLoc host_buf host_offset) N)
          (GetDevLoc ⟨b_data, A.session⟩ b_offset + i)
        = (w.sessions A.session).memory (GetDevLoc A a_offset + i) := by
    intro i hi
    rw [storeBytes_loadBytes _ _ _ _ _ _ hi]
    exact storeBytes_loadBytes _ _ _ _ _ _ hi
  have hout : ∀ a, ¬ (GetDevLoc ⟨b_data, A.session⟩ b_offset ≤ a ∧
        a < GetDevLoc ⟨b_data, A.session⟩ b_offset + N) →
      storeBytes (w.sessions A.session).memory (GetDevLoc ⟨b_data, A.session⟩ b_offset)
          (loadBytes
            (storeBytes w.host (GetHostLoc host_buf host_offset)
              (loadBytes (w.sessions A.session).memory (GetDevLoc A a_offset) N))
            (GetHostLoc host_buf host_offset) N) a
        = (w.sessions A.session).memory a :=
    fun a ha => storeBytes_loadBytes_outside _ _ _ _ _ _ ha
  have hA : ∀ i, i < N →
      storeBytes (w.sessions A.session).memory (GetDevLoc ⟨b_data, A.session⟩ b_offset)
          (loadBytes
            (storeBytes w.host (GetHostLoc host_buf host_offset)
              (loadBytes (w.sessions A.session).memory (GetDevLoc A a_offset) N))
            (GetHostLoc host_buf host_offset) N)
          (GetDevLoc A a_offset + i)
        = (w.sessions A.session).memory (GetDevLoc A a_offset + i) := by
    intro i hi
    apply hout
    omega
  refine ⟨_, _, CopyDataFromTo_read_eq K a_addr A host_buf a_offset host_offset N
    id_a id_host type_hint stream w hk,
    CopyDataFromTo_write_eq K host_buf b_addr _ host_offset b_offset N
    id_host2 id_b type_hint stream _ hk, rfl, rfl, ?_, ?_, ?_, ?_,
    GetDevLoc_of_lt _ _, GetDevLoc_of_lt _ _, GetHostLoc_of_lt _ _, ?_⟩
  · intro i hi
    exact storeBytes_loadBytes _ _ _ _ _ _ hi
  · intro i hi
    simp only [Function.update_same]
    exact hB i hi
  · intro i hi
    simp only [Function.update_same]
    exact hA i hi
  · intro a ha
    simp only [Function.update_same]
    exact hout a ha
  · intro ha hb i hi
    simp only [Function.update_same]
    rw [← GetDevLoc_of_lt A a_offset ha, ← GetDevLoc_of_lt ⟨b_data, A.session⟩ b_offset hb]
    exact ⟨hB i hi, hA i hi⟩

/-- The device-to-device branch never ends in the unsupported-direction error. -/
theorem CopyDataFromTo_device_branch_ne {σ : Type} (K : DeviceKinds)
    (from_ to_ : VoidPtr) (from_offset to_offset size : Nat) (ctx_from ctx_to : TVMContext)
    (type_hint : TVMType) (stream : TVMStreamHandle) (w : World σ)
    (h1 : (ctx_from.device_type, ctx_to.device_type) = (K.kDLSNPS_EV, K.kDLSNPS_EV)) :
    (CopyDataFromTo K from_ from_offset to_ to_offset size ctx_from ctx_to
      type_hint stream w).1 ≠ Outcome.fatal Fatal.expect_snps_ev := by
  obtain ⟨from_addr, from_pointee⟩ := from_
  obtain ⟨to_addr, to_pointee⟩ := to_
  simp only [CopyDataFromTo, h1, if_true]
  rcases from_pointee with _ | from_space <;> rcases to_pointee with _ | to_space
  · simp
  · simp
  · simp
  · by_cases hs : from_space.session = to_space.session
    · by_cases hid : ctx_from.device_id = ctx_to.device_id
      · by_cases hsize : size > VECTOR_MAX_SIZE
        · simp [hs, hid, hsize]
        · simp [hs, hid, hsize]
      · simp [hs, hid]
    · simp [hs]

/-- The device-to-host branch never ends in the unsupported-direction error. -/
theorem CopyDataFromTo_read_branch_ne {σ : Type} (K : DeviceKinds)
    (from_ to_ : VoidPtr) (from_offset to_offset size : Nat) (ctx_from ctx_to : TVMContext)
    (type_hint : TVMType) (stream : TVMStreamHandle) (w : World σ)
    (h1 : ¬ (ctx_from.device_type, ctx_to.device_type) = (K.kDLSNPS_EV, K.kDLSNPS_EV))
    (h2 : (ctx_from.device_type, ctx_to.device_type) = (K.kDLSNPS_EV, K.kDLCPU)) :
    (CopyDataFromTo K from_ from_offset to_ to_offset size ctx_from ctx_to
      type_hint stream w).1 ≠ Outcome.fatal Fatal.expect_snps_ev := by
  obtain ⟨from_addr, from_pointee⟩ := from_
  rw [h2] at h1
  simp only [Prod.mk.injEq, true_and] at h1
  simp only [CopyDataFromTo, h2, Prod.mk.injEq, true_and, h1, if_false, if_true]
  rcases from_pointee with _ | from_space <;> simp

/-- The host-to-device branch never ends in the unsupported-direction error. -/
theorem CopyDataFromTo_write_branch_ne {σ : Type} (K : DeviceKinds)
    (from_ to_ : VoidPtr) (from_offset to_offset size : Nat) (ctx_from ctx_to : TVMContext)
    (type_hint : TVMType) (stream : TVMStreamHandle) (w : World σ)
    (h1 : ¬ (ctx_from.device_type, ctx_to.device_type) = (K.kDLSNPS_EV, K.kDLSNPS_EV))
    (h2 : ¬ (ctx_from.device_type, ctx_to.device_type) = (K.kDLSNPS_EV, K.kDLCPU))
    (h3 : (ctx_from.device_type, ctx_to.device_type) = (K.kDLCPU, K.kDLSNPS_EV)) :
    (CopyDataFromTo K from_ from_offset to_ to_offset size ctx_from ctx_to
      type_hint stream w).1 ≠ Outcome.fatal Fatal.expect_snps_ev := by
  obtain ⟨to_addr, to_pointee⟩ := to_
  rw [h3] at h1 h2
  simp only [CopyDataFromTo, h3, if_neg h1, if_neg h2, if_true]
  rcases to_pointee with _ | to_space <;> simp

/-- C6. The call ends in the "Expect copy from/to snps_ev device" fatal error
exactly when the pair of context device kinds is none of (snps_ev, snps_ev),
(snps_ev, CPU), (CPU, snps_ev); in that case the world is as it was, so no
`Read` and no `Write` was issued. -/
theorem CopyDataFromTo_expect_snps_ev {σ : Type} (K : DeviceKinds)
    (from_ to_ : VoidPtr) (from_offset to_offset size : Nat) (ctx_from ctx_to : TVMContext)
    (type_hint : TVMType) (stream : TVMStreamHandle) (w : World σ) :
    ((CopyDataFromTo K from_ from_offset to_ to_offset size ctx_from ctx_to
          type_hint stream w).1 = Outcome.fatal Fatal.expect_snps_ev
      ↔ (ctx_from.device_type, ctx_to.device_type) ∉
          [(K.kDLSNPS_EV, K.kDLSNPS_EV), (K.kDLSNPS_EV, K.kDLCPU), (K.kDLCPU, K.kDLSNPS_EV)]) ∧
    ((ctx_from.device_type, ctx_to.device_type) ∉
          [(K.kDLSNPS_EV, K.kDLSNPS_EV), (K.kDLSNPS_EV, K.kDLCPU), (K.kDLCPU, K.kDLSNPS_EV)] →
      CopyDataFromTo K from_ from_offset to_ to_offset size ctx_from ctx_to
          type_hint stream w = (Outcome.fatal Fatal.expect_snps_ev, w)) := by
  simp only [List.mem_cons, List.mem_singleton, List.not_mem_nil, or_false, not_or]
  constructor
  · by_cases h1 : (ctx_from.device_type, ctx_to.device_type) = (K.kDLSNPS_EV, K.kDLSNPS_EV)
    · simp only [h1, not_true_eq_false, false_and, iff_false]
      exact CopyDataFromTo_device_branch_ne K from_ to_ from_offset to_offset size
        ctx_from ctx_to type_hint stream w h1
    · by_cases h2 : (ctx_from.device_type, ctx_to.device_type) = (K.kDLSNPS_EV, K.kDLCPU)
      · simp only [h2, not_true_eq_false, false_and, and_false, iff_false]
        exact CopyDataFromTo_read_branch_ne K from_ to_ from_offset to_offset size
          ctx_from ctx_to type_hint stream w h1 h2
      · by_cases h3 : (ctx_from.device_type, ctx_to.device_type) = (K.kDLCPU, K.kDLSNPS_EV)
        · simp only [h3, not_true_eq_false, and_false, iff_false]
          exact CopyDataFromTo_write_branch_ne K from_ to_ from_offset to_offset size
            ctx_from ctx_to type_hint stream w h1 h2 h3
        · simp [CopyDataFromTo, h1, h2, h3]
  · intro h
    simp [CopyDataFromTo, h.1, h.2.1, h.2.2]

/-- C7. A device-to-device copy between handles of one session but with
different device ids in the two contexts ends in the "can only copy between
the same snps_ev device" fatal error and leaves the world as it was: no `Read`
and no `Write` is issued and device memory is unchanged. -/
theorem CopyDataFromTo_different_device {σ : Type} (K : DeviceKinds)
    (from_addr to_addr : Nat) (from_space to_space : SNPS_EVDevSpace)
    (from_offset to_offset size : Nat) (id_from id_to : Int)
    (type_hint : TVMType) (stream : TVMStreamHandle) (w : World σ)
    (hs : from_space.session = to_space.session) (hid : id_from ≠ id_to) :
    CopyDataFromTo K ⟨from_addr, some from_space⟩ from_offset
        ⟨to_addr, some to_space⟩ to_offset size
        ⟨K.kDLSNPS_EV, id_from⟩ ⟨K.kDLSNPS_EV, id_to⟩ type_hint stream w
      = (Outcome.fatal Fatal.different_device, w) := by
  simp [CopyDataFromTo, hs, hid]

/-! ## Allocation and release -/

theorem setSection_setSection_self {σ : Type} (s : SNPS_EVSession σ) (kind : SectionKind)
    (st : σ) : (s.setSection kind st).setSection kind (s.sectionState kind) = s := by
  cases kind <;> rfl

theorem sectionState_setSection {σ : Type} (s : SNPS_EVSession σ) (kind : SectionKind)
    (st : σ) : (s.setSection kind st).sectionState kind = st := by
  cases kind <;> rfl

/-- Releasing, right after the allocation, the address the allocation returned
restores every session when the allocator's `Free` undoes that `Allocate`. -/
theorem FreeInSection_AllocateInSection {σ : Type} (A : SectionAllocator σ)
    (session : SessionRef) (kind : SectionKind) (size : Nat) (w : World σ)
    (hundo : A.Free (A.Allocate ((w.sessions session).sectionState kind) size).2
               (A.Allocate ((w.sessions session).sectionState kind) size).1
             = (w.sessions session).sectionState kind) :
    (FreeInSection A session kind
        (A.Allocate ((w.sessions session).sectionState kind) size).1
        (AllocateInSection A session kind size w).2).sessions = w.sessions := by
  simp only [FreeInSection, AllocateInSection, Function.update_same, Function.update_idem,
    sectionState_setSection, hundo, setSection_setSection_self, Function.update_eq_self]

theorem AllocWorkspace_snd {σ : Type} (A : SectionAllocator σ) (ctx : TVMContext)
    (size : Nat) (type_hint : TVMType) (w : World σ) :
    (AllocWorkspace A ctx size type_hint w).2
      = (AllocateInSection A w.current SectionKind.kWorkspace size w).2 := by
  simp only [AllocWorkspace, Current]
  split_ifs <;> rfl

theorem AllocDataSpace_snd {σ : Type} (A : SectionAllocator σ) (ctx : TVMContext)
    (nbytes alignment : Nat) (type_hint : TVMType) (w : World σ) :
    (AllocDataSpace A ctx nbytes alignment type_hint w).2
      = (AllocateInSection A w.current SectionKind.kHeap nbytes w).2 := by
  simp only [AllocDataSpace, Current]
  split_ifs <;> rfl

/-- C8. Section isolation on allocation failure. `AllocWorkspace(size)` makes
exactly one allocator request, `AllocateInSection(Workspace, size)` on the
current session; the Heap state of every session is what it was; the call is
fatal exactly when the allocator returned the null address (then no handle is
returned), and otherwise returns the handle of the returned address.
Symmetrically `AllocDataSpace(size, alignment)` makes exactly one request,
`AllocateInSection(Heap, size)`, leaves every Workspace state as it was, and is
fatal exactly when the allocator returned the null address. -/
theorem Alloc_section_isolation {σ : Type} (A : SectionAllocator σ) (ctx : TVMContext)
    (size alignment : Nat) (type_hint : TVMType) (w : World σ) :
    ((AllocWorkspace A ctx size type_hint w).2.calls
        = w.calls ++ [Event.AllocateInSection w.current SectionKind.kWorkspace size] ∧
     (∀ s, ((AllocWorkspace A ctx size type_hint w).2.sessions s).heap = (w.sessions s).heap) ∧
     ((AllocWorkspace A ctx size type_hint w).1
          = Outcome.fatal (Fatal.unable_to_allocate_workspace size)
        ↔ (A.Allocate (w.sessions w.current).workspace size).1 = nullptr) ∧
     ((A.Allocate (w.sessions w.current).workspace size).1 ≠ nullptr →
        (AllocWorkspace A ctx size type_hint w).1
          = Outcome.ok ⟨(A.Allocate (w.sessions w.current).workspace size).1, w.current⟩)) ∧
    ((AllocDataSpace A ctx size alignment type_hint w).2.calls
        = w.calls ++ [Event.AllocateInSection w.current SectionKind.kHeap size] ∧
     (∀ s, ((AllocDataSpace A ctx size alignment type_hint w).2.sessions s).workspace
        = (w.sessions s).workspace) ∧
     ((AllocDataSpace A ctx size alignment type_hint w).1
          = Outcome.fatal (Fatal.unable_to_allocate_heap size)
        ↔ (A.Allocate (w.sessions w.current).heap size).1 = nullptr) ∧
     ((A.Allocate (w.sessions w.current).heap size).1 ≠ nullptr →
        (AllocDataSpace A ctx size alignment type_hint w).1
          = Outcome.ok ⟨(A.Allocate (w.sessions w.current).heap size).1, w.current⟩)) := by
  refine ⟨⟨?_, ?_, ?_, ?_⟩, ⟨?_, ?_, ?_, ?_⟩⟩
  · rw [AllocWorkspace_snd]
    rfl
  · intro s
    rw [AllocWorkspace_snd]
    by_cases hs : s = w.current
    · subst hs
      simp [AllocateInSection, SNPS_EVSession.setSection]
    · simp [AllocateInSection, Function.update_noteq hs]
  · by_cases h0 : (A.Allocate (w.sessions w.current).workspace size).1 = nullptr
    · simp [AllocWorkspace, Current, AllocateInSection, SNPS_EVSession.sectionState, h0]
    · simp [AllocWorkspace, Current, AllocateInSection, SNPS_EVSession.sectionState, h0]
  · intro h0
    simp [AllocWorkspace, Current, AllocateInSection, SNPS_EVSession.sectionState, h0]
  · rw [AllocDataSpace_snd]
    rfl
  · intro s
    rw [AllocDataSpace_snd]
    by_cases hs : s = w.current
    · subst hs
      simp [AllocateInSection, SNPS_EVSession.setSection]
    · simp [AllocateInSection, Function.update_noteq hs]
  · by_cases h0 : (A.Allocate (w.sessions w.current).heap size).1 = nullptr
    · simp [AllocDataSpace, Current, AllocateInSection, SNPS_EVSession.sectionState, h0]
    · simp [AllocDataSpace, Current, AllocateInSection, SNPS_EVSession.sectionState, h0]
  · intro h0
    simp [AllocDataSpace, Current, AllocateInSection, SNPS_EVSession.sectionState, h0]

/-- C9. Alloc/free pairing through the handle. When the allocator returns a
non-null address `p` to `AllocDataSpace` made while session `S` is current,
the call returns the handle `(data = p, session = S)`. `FreeDataSpace` on that
handle, in any later world (whatever session is current then), returns after
exactly one request, `FreeInSection(Heap, p)` on `S`: the Heap state of `S`
becomes `Free` of its state at `p` and no Workspace state changes. If the
allocator's `Free` undoes that `Allocate`, the release made right after the
allocation restores every session. The same holds for `AllocWorkspace` /
`FreeWorkspace` with the Workspace section. -/
theorem Alloc_Free_pairing {σ : Type} (A : SectionAllocator σ) (ctx ctx_free : TVMContext)
    (size alignment : Nat) (type_hint : TVMType) (handle_addr : Nat) (w later : World σ) :
    ((A.Allocate (w.sessions w.current).heap size).1 ≠ nullptr →
      AllocDataSpace A ctx size alignment type_hint w
        = (Outcome.ok ⟨(A.Allocate (w.sessions w.current).heap size).1, w.current⟩,
           (AllocateInSection A w.current SectionKind.kHeap size w).2) ∧
      FreeDataSpace A ctx_free
          ⟨handle_addr, some ⟨(A.Allocate (w.sessions w.current).heap size).1, w.current⟩⟩
          later
        = (Outcome.ok (),
           FreeInSection A w.current SectionKind.kHeap
             (A.Allocate (w.sessions w.current).heap size).1 later) ∧
      (FreeInSection A w.current SectionKind.kHeap
          (A.Allocate (w.sessions w.current).heap size).1 later).calls
        = later.calls ++ [Event.FreeInSection w.current SectionKind.kHeap
                            (A.Allocate (w.sessions w.current).heap size).1] ∧
      ((FreeInSection A w.current SectionKind.kHeap
          (A.Allocate (w.sessions w.current).heap size).1 later).sessions w.current).heap
        = A.Free (later.sessions w.current).heap
            (A.Allocate (w.sessions w.current).heap size).1 ∧
      (∀ s, ((FreeInSection A w.current SectionKind.kHeap
          (A.Allocate (w.sessions w.current).heap size).1 later).sessions s).workspace
        = (later.sessions s).workspace) ∧
      (A.Free (A.Allocate (w.sessions w.current).heap size).2
            (A.Allocate (w.sessions w.current).heap size).1 = (w.sessions w.current).heap →
        (FreeDataSpace A ctx_free
            ⟨handle_addr, some ⟨(A.Allocate (w.sessions w.current).heap size).1, w.current⟩⟩
            (AllocDataSpace A ctx size alignment type_hint w).2).2.sessions = w.sessions)) ∧
    ((A.Allocate (w.sessions w.current).workspace size).1 ≠ nullptr →
      AllocWorkspace A ctx size type_hint w
        = (Outcome.ok ⟨(A.Allocate (w.sessions w.current).workspace size).1, w.current⟩,
           (AllocateInSection A w.current SectionKind.kWorkspace size w).2) ∧
      FreeWorkspace A ctx_free
          ⟨handle_addr,
            some ⟨(A.Allocate (w.sessions w.current).workspace size).1, w.current⟩⟩
          later
        = (Outcome.ok (),
           FreeInSection A w.current SectionKind.kWorkspace
             (A.Allocate (w.sessions w.current).workspace size).1 later) ∧
      (FreeInSection A w.current SectionKind.kWorkspace
          (A.Allocate (w.sessions w.current).workspace size).1 later).calls
        = later.calls ++ [Event.FreeInSection w.current SectionKind.kWorkspace
                            (A.Allocate (w.sessions w.current).workspace size).1] ∧
      ((FreeInSection A w.current SectionKind.kWorkspace
          (A.Allocate (w.sessions w.current).workspace size).1 later).sessions
            w.current).workspace
        = A.Free (later.sessions w.current).workspace
            (A.Allocate (w.sessions w.current).workspace size).1 ∧
      (∀ s, ((FreeInSection A w.current SectionKind.kWorkspace
          (A.Allocate (w.sessions w.current).workspace size).1 later).sessions s).heap
        = (later.sessions s).heap) ∧
      (A.Free (A.Allocate (w.sessions w.current).workspace size).2
            (A.Allocate (w.sessions w.current).workspace size).1
          = (w.sessions w.current).workspace →
        (FreeWorkspace A ctx_free
            ⟨handle_addr,
              some ⟨(A.Allocate (w.sessions w.current).workspace size).1, w.current⟩⟩
            (AllocWorkspace A ctx size type_hint w).2).2.sessions = w.sessions)) := by
  refine ⟨fun h0 => ⟨?_, rfl, rfl, ?_, ?_, ?_⟩, fun h0 => ⟨?_, rfl, rfl, ?_, ?_, ?_⟩⟩
  · simp [AllocDataSpace, Current, AllocateInSection, SNPS_EVSession.sectionState, h0]
  · simp [FreeInSection, SNPS_EVSession.setSection, SNPS_EVSession.sectionState]
  · intro s
    by_cases hs : s = w.current
    · subst hs
      simp [FreeInSection, SNPS_EVSession.setSection]
    · simp [FreeInSection, Function.update_noteq hs]
  · intro hundo
    rw [AllocDataSpace_snd]
    exact FreeInSection_AllocateInSection A w.current SectionKind.kHeap size w hundo
  · simp [AllocWorkspace, Current, AllocateInSection, SNPS_EVSession.sectionState, h0]
  · simp [FreeInSection, SNPS_EVSession.setSection, SNPS_EVSession.sectionState]
  · intro s
    by_cases hs : s = w.current
    · subst hs
      simp [FreeInSection, SNPS_EVSession.setSection]
    · simp [FreeInSection, Function.update_noteq hs]
  · intro hundo
    rw [AllocWorkspace_snd]
    exact FreeInSection_AllocateInSection A w.current SectionKind.kWorkspace size w hundo

/-- C10. `AllocDataSpace` does not depend on its alignment argument. From the
same world, two calls that differ only in the alignment give the same outcome
and the same next world; the one request they send is
`AllocateInSection(Heap, nbytes)` with the size unpadded; and whenever the
allocator returns a non-null address the call returns the handle of exactly
that address, whether or not the address is a multiple of the alignment. -/
theorem AllocDataSpace_alignment_irrelevant {σ : Type} (A : SectionAllocator σ)
    (ctx : TVMContext) (nbytes a1 a2 : Nat) (type_hint : TVMType) (w : World σ) :
    AllocDataSpace A ctx nbytes a1 type_hint w = AllocDataSpace A ctx nbytes a2 type_hint w ∧
    (AllocDataSpace A ctx nbytes a1 type_hint w).2.calls
      = w.calls ++ [Event.AllocateInSection w.current SectionKind.kHeap nbytes] ∧
    ((AllocDataSpace A ctx nbytes a1 type_hint w).2.sessions w.current).heap
      = (A.Allocate (w.sessions w.current).heap nbytes).2 ∧
    ((A.Allocate (w.sessions w.current).heap nbytes).1 ≠ nullptr →
      (AllocDataSpace A ctx nbytes a1 type_hint w).1
        = Outcome.ok ⟨(A.Allocate (w.sessions w.current).heap nbytes).1, w.current⟩) := by
  refine ⟨rfl, ?_, ?_, ?_⟩
  · rw [AllocDataSpace_snd]
    rfl
  · rw [AllocDataSpace_snd]
    simp [AllocateInSection, SNPS_EVSession.setSection, SNPS_EVSession.sectionState]
  · intro h0
    simp [AllocDataSpace, Current, AllocateInSection, SNPS_EVSession.sectionState, h0]

/-! ## The statements at concrete inputs -/

/-- A copy between a handle of session 1 and a handle of session 2 is rejected. -/
theorem CopyDataFromTo_different_sessions_witness :
    handleA.session ≠ handleC.session ∧
    CopyDataFromTo exampleKinds ⟨0x5000, some handleA⟩ 0 ⟨0x5010, some handleC⟩ 4 16
        ⟨13, 0⟩ ⟨13, 0⟩ float32 0 exampleWorld
      = (Outcome.fatal (Fatal.different_sessions 1 2), exampleWorld) :=
  ⟨by decide,
   CopyDataFromTo_different_sessions exampleKinds 0x5000 0x5010 handleA handleC 0 4 16 0 0 float32 0
     exampleWorld (by decide)⟩

/-- Four bytes read from session 2 at `0x1008` into host `0x7f02` while session 1 is current. -/
theorem CopyDataFromTo_device_to_host_witness :
    exampleKinds.kDLSNPS_EV ≠ exampleKinds.kDLCPU ∧
    ∃ w1 : World StackSection,
      CopyDataFromTo exampleKinds ⟨0x5000, some handleC⟩ 8 hostBuffer 2 4
          ⟨13, 0⟩ ⟨1, 0⟩ float32 0 exampleWorld = (Outcome.ok (), w1) ∧
      w1.calls = [Event.Read 2 0x1008 (HostBuf.host 0x7f02) 4] ∧
      w1.sessions = exampleWorld.sessions ∧
      w1.host 0x7f02 = 0x08 ∧ w1.host 0x7f05 = 0x0b ∧
      w1.host 0x7f01 = 0x00 ∧ w1.host 0x7f06 = 0x00 := by
  obtain ⟨w1, hrun, hcalls, hsessions, hdst, hrest, _⟩ :=
    CopyDataFromTo_device_to_host exampleKinds 0x5000 handleC hostBuffer 8 2 4 0 0 float32 0
      exampleWorld (by decide)
  exact ⟨by decide, w1, hrun, hcalls, hsessions, hdst 0 (by decide), hdst 3 (by decide),
    hrest 0x7f01 (by decide), hrest 0x7f06 (by decide)⟩

/-- Four zero bytes written from host `0x7f02` to session 1 at `0x1088`. -/
theorem CopyDataFromTo_host_to_device_witness :
    exampleKinds.kDLSNPS_EV ≠ exampleKinds.kDLCPU ∧
    ∃ w1 : World StackSection,
      CopyDataFromTo exampleKinds hostBuffer 2 ⟨0x5000, some handleB⟩ 8 4
          ⟨1, 0⟩ ⟨13, 0⟩ float32 0 exampleWorld = (Outcome.ok (), w1) ∧
      w1.calls = [Event.Write 1 0x1088 (HostBuf.host 0x7f02) 4] ∧
      (w1.sessions 1).memory 0x1088 = 0x00 ∧ (w1.sessions 1).memory 0x108b = 0x00 ∧
      (w1.sessions 1).memory 0x1087 = 0x87 ∧ (w1.sessions 1).memory 0x108c = 0x8c ∧
      w1.sessions 2 = exampleWorld.sessions 2 := by
  obtain ⟨w1, hrun, hcalls, hdst, hrest, _, _, hother, _, _, _, _⟩ :=
    CopyDataFromTo_host_to_device exampleKinds hostBuffer 0x5000 handleB 2 8 4 0 0 float32 0
      exampleWorld (by decide)
  exact ⟨by decide, w1, hrun, hcalls, hdst 0 (by decide), hdst 3 (by decide),
    hrest 0x1087 (by decide), hrest 0x108c (by decide), hother 2 (by decide)⟩

/-- Sixteen bytes taken from handle A at offset 8 (`0x1008`) through the host
buffer at offset 2 (`0x7f02`) to handle B at offset 4 (`0x1084`) in session 1. -/
theorem CopyDataFromTo_round_trip_witness :
    exampleKinds.kDLSNPS_EV ≠ exampleKinds.kDLCPU ∧ handleB.session = handleA.session ∧
    GetDevLoc handleA 8 + 16 ≤ GetDevLoc handleB 4 ∧
    ∃ w1 w2 : World StackSection,
      CopyDataFromTo exampleKinds ⟨0x5000, some handleA⟩ 8 hostBuffer 2 16
          ⟨13, 0⟩ ⟨1, 0⟩ float32 0 exampleWorld = (Outcome.ok (), w1) ∧
      CopyDataFromTo exampleKinds hostBuffer 2 ⟨0x5010, some handleB⟩ 4 16
          ⟨1, 0⟩ ⟨13, 0⟩ float32 0 w1 = (Outcome.ok (), w2) ∧
      w1.calls = [Event.Read 1 0x1008 (HostBuf.host 0x7f02) 16] ∧
      w2.calls = w1.calls ++ [Event.Write 1 0x1084 (HostBuf.host 0x7f02) 16] ∧
      w1.host 0x7f02 = 0x08 ∧ w1.host 0x7f11 = 0x17 ∧
      (w2.sessions 1).memory 0x1084 = 0x08 ∧ (w2.sessions 1).memory 0x1093 = 0x17 ∧
      (w2.sessions 1).memory 0x1008 = 0x08 ∧ (w2.sessions 1).memory 0x1017 = 0x17 ∧
      (w2.sessions 1).memory 0x1083 = 0x83 ∧ (w2.sessions 1).memory 0x1094 = 0x94 ∧
      (handleA.data + 8 = 0x1008 ∧ handleB.data + 4 = 0x1084) ∧
      (w2.sessions 1).memory (handleB.data + 4 + 5)
        = (exampleWorld.sessions 1).memory (handleA.data + 8 + 5) := by
  obtain ⟨w1, w2, hrun1, hrun2, hcalls1, hcalls2, hhost, hB, hA, hrest, _, _, _, hplain⟩ :=
    CopyDataFromTo_round_trip exampleKinds 0x5000 0x5010 handleA handleB hostBuffer 8 2 4 16
      0 0 0 0 float32 0 exampleWorld (by decide) rfl (Or.inl (by decide))
  exact ⟨by decide, rfl, by decide, w1, w2, hrun1, hrun2, hcalls1, hcalls2,
    hhost 0 (by decide), hhost 15 (by decide), hB 0 (by decide), hB 15 (by decide),
    hA 0 (by decide), hA 15 (by decide), hrest 0x1083 (by decide), hrest 0x1094 (by decide),
    ⟨rfl, rfl⟩, (hplain (by decide) (by decide) 5 (by decide)).1⟩

/-- Host-to-host and snps_ev-to-kind-2 copies are rejected untouched. -/
theorem CopyDataFromTo_expect_snps_ev_witness :
    CopyDataFromTo exampleKinds hostBuffer 0 hostBuffer 8 4 ⟨1, 0⟩ ⟨1, 0⟩ float32 0
        exampleWorld
        = (Outcome.fatal Fatal.expect_snps_ev, exampleWorld) ∧
    CopyDataFromTo exampleKinds ⟨0x5000, some handleA⟩ 0 hostBuffer 8 4 ⟨13, 0⟩ ⟨2, 0⟩
        float32 0
        exampleWorld
        = (Outcome.fatal Fatal.expect_snps_ev, exampleWorld) :=
  ⟨(CopyDataFromTo_expect_snps_ev exampleKinds hostBuffer hostBuffer 0 8 4 ⟨1, 0⟩ ⟨1, 0⟩
      float32 0 exampleWorld).2 (by decide),
   (CopyDataFromTo_expect_snps_ev exampleKinds ⟨0x5000, some handleA⟩ hostBuffer 0 8 4
      ⟨13, 0⟩ ⟨2, 0⟩
      float32 0 exampleWorld).2 (by decide)⟩

/-- A copy inside session 1 between device ids 0 and 1 is rejected. -/
theorem CopyDataFromTo_different_device_witness :
    handleA.session = handleB.session ∧ (0 : Int) ≠ 1 ∧
    CopyDataFromTo exampleKinds ⟨0x5000, some handleA⟩ 0 ⟨0x5010, some handleB⟩ 0 16
        ⟨13, 0⟩ ⟨13, 1⟩ float32 0 exampleWorld
      = (Outcome.fatal Fatal.different_device, exampleWorld) :=
  ⟨rfl, by decide,
   CopyDataFromTo_different_device exampleKinds 0x5000 0x5010 handleA handleB 0 0 16 0 1 float32 0
     exampleWorld rfl (by decide)⟩

/-- A 128-byte request overflows the 64-byte Workspace and leaves the Heap
alone, while the same request fits the Heap and leaves the Workspace alone. -/
theorem Alloc_section_isolation_witness :
    (AllocWorkspace stackAllocator ⟨13, 0⟩ 0x80 float32 exampleWorld).1
      = Outcome.fatal (Fatal.unable_to_allocate_workspace 0x80) ∧
    (AllocWorkspace stackAllocator ⟨13, 0⟩ 0x80 float32 exampleWorld).2.calls
      = [Event.AllocateInSection 1 SectionKind.kWorkspace 0x80] ∧
    ((AllocWorkspace stackAllocator ⟨13, 0⟩ 0x80 float32 exampleWorld).2.sessions 1).heap
      = ⟨0x1000, 0x100, []⟩ ∧
    (AllocDataSpace stackAllocator ⟨13, 0⟩ 0x80 8 float32 exampleWorld).1
      = Outcome.ok ⟨0x1000, 1⟩ ∧
    (AllocDataSpace stackAllocator ⟨13, 0⟩ 0x80 8 float32 exampleWorld).2.calls
      = [Event.AllocateInSection 1 SectionKind.kHeap 0x80] ∧
    ((AllocDataSpace stackAllocator ⟨13, 0⟩ 0x80 8 float32 exampleWorld).2.sessions 1).workspace
      = ⟨0x2000, 0x40, []⟩ := by
  obtain ⟨⟨hcalls, hheap, hfatal, _⟩, ⟨hcalls2, hworkspace, _, hok⟩⟩ :=
    Alloc_section_isolation stackAllocator ⟨13, 0⟩ 0x80 8 float32 exampleWorld
  exact ⟨hfatal.2 (by decide), hcalls, hheap 1, hok (by decide), hcalls2, hworkspace 1⟩

/-- A 64-byte allocation in each section of the example world, released through its handle. -/
theorem Alloc_Free_pairing_witness :
    AllocDataSpace stackAllocator ⟨13, 0⟩ 64 8 float32 exampleWorld
      = (Outcome.ok ⟨0x1000, 1⟩,
         (AllocateInSection stackAllocator 1 SectionKind.kHeap 64 exampleWorld).2) ∧
    (FreeDataSpace stackAllocator ⟨13, 0⟩ ⟨0x5000, some ⟨0x1000, 1⟩⟩
        { exampleWorld with current := 2 }).2.calls
      = [Event.FreeInSection 1 SectionKind.kHeap 0x1000] ∧
    (FreeDataSpace stackAllocator ⟨13, 0⟩ ⟨0x5000, some ⟨0x1000, 1⟩⟩
        (AllocDataSpace stackAllocator ⟨13, 0⟩ 64 8 float32 exampleWorld).2).2.sessions
      = exampleWorld.sessions ∧
    AllocWorkspace stackAllocator ⟨13, 0⟩ 64 float32 exampleWorld
      = (Outcome.ok ⟨0x2000, 1⟩,
         (AllocateInSection stackAllocator 1 SectionKind.kWorkspace 64 exampleWorld).2) ∧
    (FreeWorkspace stackAllocator ⟨13, 0⟩ ⟨0x5000, some ⟨0x2000, 1⟩⟩
        (AllocWorkspace stackAllocator ⟨13, 0⟩ 64 float32 exampleWorld).2).2.sessions
      = exampleWorld.sessions := by
  obtain ⟨hheap, hworkspace⟩ :=
    Alloc_Free_pairing stackAllocator ⟨13, 0⟩ ⟨13, 0⟩ 64 8 float32 0x5000 exampleWorld
      { exampleWorld with current := 2 }
  obtain ⟨halloc, hfree, hcalls, _, _, hundo⟩ := hheap (by decide)
  obtain ⟨halloc2, _, _, _, _, hundo2⟩ := hworkspace (by decide)
  exact ⟨halloc, (congrArg (fun r => r.2.calls) hfree).trans hcalls, hundo (by decide), halloc2,
    hundo2 (by decide)⟩

/-- After a 3-byte allocation the next block is at `0x1003`, returned for
alignment 8 and 64 alike. -/
theorem AllocDataSpace_alignment_irrelevant_witness :
    AllocDataSpace stackAllocator ⟨13, 0⟩ 24 8 float32
        (AllocDataSpace stackAllocator ⟨13, 0⟩ 3 1 float32 exampleWorld).2
      = AllocDataSpace stackAllocator ⟨13, 0⟩ 24 64 float32
        (AllocDataSpace stackAllocator ⟨13, 0⟩ 3 1 float32 exampleWorld).2 ∧
    (AllocDataSpace stackAllocator ⟨13, 0⟩ 24 64 float32
        (AllocDataSpace stackAllocator ⟨13, 0⟩ 3 1 float32 exampleWorld).2).1
      = Outcome.ok ⟨0x1003, 1⟩ ∧
    (AllocDataSpace stackAllocator ⟨13, 0⟩ 24 64 float32
        (AllocDataSpace stackAllocator ⟨13, 0⟩ 3 1 float32 exampleWorld).2).2.calls
      = [Event.AllocateInSection 1 SectionKind.kHeap 3,
         Event.AllocateInSection 1 SectionKind.kHeap 24] := by
  obtain ⟨hsame, hcalls, _, hok⟩ :=
    AllocDataSpace_alignment_irrelevant stackAllocator ⟨13, 0⟩ 24 64 8 float32
      (AllocDataSpace stackAllocator ⟨13, 0⟩ 3 1 float32 exampleWorld).2
  exact ⟨hsame.symm, hok (by decide), hcalls⟩

end SnpsEv
